import Mathlib

/-
Verification of the asteroids game loop in src/Main.cpp.

Modelling conventions:
* C++ `float` values (positions, velocities, timers, radii) are embedded as
  rationals (ℚ); the claims under scrutiny concern exact algebraic relations
  between these quantities, not rounding behaviour.
* C++ `int` values (hit points, damage) are embedded as ℤ.  All values reached
  in the claims stay far below 2^31, so wrap-around is irrelevant.
* `cosf`, `sinf` and the constant `PI` are transcendental; they are passed as
  explicit parameters `cosf sinf : ℚ → ℚ` and `piq : ℚ` to the definitions that
  use them, so every definition stays executable.
* The source collision test `Vector2Distance(p, q) < r1 + r2` is embedded as
  the squared comparison `distSq p q < (r1 + r2)^2`, equivalent because both
  radii are positive constants (see `hitB_iff_dist` below).
* Random draws (`GetRandomValue`, `Utils::RandomFloat`) are parameters of the
  corresponding definitions (edge index, offset along the edge, ...).
-/

-- ---------------------------------------------------------------------------
-- Vectors (raylib Vector2, restricted to the operations the game uses)
-- ---------------------------------------------------------------------------

/-- 2D vector, the model of raylib `Vector2` (Main.cpp uses only component
arithmetic on it). -/
structure Vec2 where
  x : ℚ
  y : ℚ
deriving DecidableEq

/-- Squared euclidean distance; `Vector2Distance p q < s` with `0 < s` is
equivalent to `distSq p q < s ^ 2`. -/
def distSq (u v : Vec2) : ℚ :=
  (u.x - v.x) ^ 2 + (u.y - v.y) ^ 2

-- ---------------------------------------------------------------------------
-- Asteroids (Main.cpp lines 79-222)
-- ---------------------------------------------------------------------------

/-- `Renderable::Size` from Main.cpp line 31: `SMALL = 1, MEDIUM = 2,
LARGE = 4, GIGA = 10`. -/
inductive SizeClass where
  | SMALL
  | MEDIUM
  | LARGE
  | GIGA
deriving DecidableEq

/-- The numeric value of the `Renderable::Size` enumerator. -/
def SizeClass.sizeNum : SizeClass → ℤ
  | .SMALL => 1
  | .MEDIUM => 2
  | .LARGE => 4
  | .GIGA => 10

/-- `baseDamage` as set by the four concrete asteroid constructors
(Main.cpp lines 179-222): Triangle/SMALL 5, Square/MEDIUM 10,
Pentagon/LARGE 15, Giga/GIGA 10. -/
def SizeClass.baseDamageOf : SizeClass → ℤ
  | .SMALL => 5
  | .MEDIUM => 10
  | .LARGE => 15
  | .GIGA => 10

/-- `Asteroid::GetMaxHP` (Main.cpp lines 114-122). -/
def SizeClass.maxHPOf : SizeClass → ℤ
  | .SMALL => 25
  | .MEDIUM => 100
  | .LARGE => 300
  | .GIGA => 1000

/-- The state of one `Asteroid` object (Main.cpp lines 81-177).  The field
`id` is ghost data standing for the identity of the heap object behind the
`unique_ptr`; no dynamics ever read it. -/
structure Asteroid where
  id : ℕ
  pos : Vec2
  rot : ℚ
  vel : Vec2
  rotationSpeed : ℚ
  size : SizeClass
  baseDamage : ℤ
  hp : ℤ
deriving DecidableEq

/-- `Asteroid::GetRadius` (line 102): `16.f * (float)render.size`. -/
def Asteroid.GetRadius (a : Asteroid) : ℚ :=
  16 * (a.size.sizeNum : ℚ)

/-- `Asteroid::GetDamage` (line 106): `baseDamage * (int)render.size`. -/
def Asteroid.GetDamage (a : Asteroid) : ℤ :=
  a.baseDamage * a.size.sizeNum

/-- `Asteroid::TakeDamage` (line 124): `hp -= dmg`. -/
def Asteroid.TakeDamage (a : Asteroid) (dmg : ℤ) : Asteroid :=
  { a with hp := a.hp - dmg }

/-- `Asteroid::IsDead` (line 128): `hp <= 0`. -/
def Asteroid.IsDead (a : Asteroid) : Bool :=
  a.hp ≤ 0

/-- `Asteroid::Update` (lines 88-95): integrate position and rotation, then
return `false` (remove) iff the position is outside the viewport extended by
the asteroid's own radius on every side.  `W`, `H` stand for
`Renderer::Instance().Width()/Height()`. -/
def Asteroid.Update (W H dt : ℚ) (a : Asteroid) : Asteroid × Bool :=
  let p : Vec2 := ⟨a.pos.x + a.vel.x * dt, a.pos.y + a.vel.y * dt⟩
  let a2 : Asteroid := { a with pos := p, rot := a.rot + a.rotationSpeed * dt }
  if p.x < -a.GetRadius ∨ p.x > W + a.GetRadius ∨
     p.y < -a.GetRadius ∨ p.y > H + a.GetRadius then
    (a2, false)
  else
    (a2, true)

/-- The constructor body shared by `TriangleAsteroid` / `SquareAsteroid` /
`PentagonAsteroid` / `GigaAsteroid` (lines 179-222): set `baseDamage` and
`render.size` for the class and `hp = GetMaxHP()`.  The kinematic fields are
whatever `Asteroid::init` drew at random; they are parameters here. -/
def mkAsteroidOfClass (i : ℕ) (pos : Vec2) (rot : ℚ) (vel : Vec2)
    (rsp : ℚ) (cls : SizeClass) : Asteroid :=
  { id := i, pos := pos, rot := rot, vel := vel, rotationSpeed := rsp,
    size := cls, baseDamage := cls.baseDamageOf, hp := cls.maxHPOf }

/-- `WeaponType` (line 258), without the `COUNT` sentinel. -/
inductive WeaponType where
  | LASER
  | BULLET
  | MINE
deriving DecidableEq

/-- The state of one `Projectile` (lines 259-331). -/
structure Projectile where
  pos : Vec2
  rot : ℚ
  vel : Vec2
  baseDamage : ℤ
  type : WeaponType
  life : ℚ
deriving DecidableEq

/-- `Projectile::GetRadius` (lines 304-319): LASER 2, BULLET 5, MINE 10. -/
def Projectile.GetRadius (p : Projectile) : ℚ :=
  match p.type with
  | .LASER => 2
  | .BULLET => 5
  | .MINE => 10

/-- `Projectile::GetDamage` (line 321). -/
def Projectile.GetDamage (p : Projectile) : ℤ :=
  p.baseDamage

/-- `Projectile::Update` (lines 270-285): integrate position, decrement
lifetime, then return `true` (remove) when the position left the exact
viewport rectangle or the remaining lifetime is `<= 0`. -/
def Projectile.Update (W H dt : ℚ) (p : Projectile) : Projectile × Bool :=
  let q : Vec2 := ⟨p.pos.x + p.vel.x * dt, p.pos.y + p.vel.y * dt⟩
  let p2 : Projectile := { p with pos := q, life := p.life - dt }
  if q.x < 0 ∨ q.x > W ∨ q.y < 0 ∨ q.y > H then
    (p2, true)
  else if p.life - dt ≤ 0 then
    (p2, true)
  else
    (p2, false)

/-- `MakeProjectile` (lines 333-348).  `cosf`/`sinf` are the C library
trigonometric functions, passed as parameters. -/
def MakeProjectile (cosf sinf : ℚ → ℚ) (wt : WeaponType) (pos : Vec2)
    (speed rotang : ℚ) : Projectile :=
  let vel : Vec2 := ⟨cosf rotang * speed, sinf rotang * speed⟩
  match wt with
  | .LASER => { pos := pos, rot := rotang, vel := vel, baseDamage := 17,
                type := .LASER, life := 10 }
  | .BULLET => { pos := pos, rot := rotang, vel := vel, baseDamage := 25,
                 type := .BULLET, life := 10 }
  | .MINE => { pos := pos, rot := rotang, vel := ⟨0, 0⟩, baseDamage := 150,
               type := .MINE, life := 10 }

-- ---------------------------------------------------------------------------
-- Player ship (Main.cpp lines 350-481)
-- ---------------------------------------------------------------------------

/-- The state of the player `Ship`/`PlayerShip` (lines 351-481).  `radius`
stands for `PlayerShip::GetRadius()`, which is derived from the loaded
texture size; it is configuration data here. -/
structure Ship where
  pos : Vec2
  rot : ℚ
  hp : ℤ
  speed : ℚ
  rSpeed : ℚ
  alive : Bool
  fireRateLaser : ℚ
  fireRateBullet : ℚ
  fireRateMine : ℚ
  spacingLaser : ℚ
  spacingBullet : ℚ
  radius : ℚ
deriving DecidableEq

/-- The `Ship` constructor (lines 353-369): centred position, `hp = 100`,
`speed = 250`, `rSpeed = 70`, `alive = true`, and the fixed per-weapon fire
rates and spacings. -/
def Ship.new (screenW screenH radius : ℚ) : Ship :=
  { pos := ⟨screenW / 2, screenH / 2⟩, rot := 0, hp := 100,
    speed := 250, rSpeed := 70, alive := true,
    fireRateLaser := 18, fireRateBullet := 12, fireRateMine := 2,
    spacingLaser := 40, spacingBullet := 20, radius := radius }

/-- `Ship::TakeDamage` (lines 374-378): no-op when dead; otherwise subtract
and clear `alive` when the hit points drop to `<= 0`. -/
def Ship.TakeDamage (sh : Ship) (dmg : ℤ) : Ship :=
  if sh.alive then
    let hp2 := sh.hp - dmg
    if hp2 ≤ 0 then { sh with hp := hp2, alive := false }
    else { sh with hp := hp2 }
  else
    sh

/-- `Ship::GetFireRate` (lines 394-409). -/
def Ship.GetFireRate (sh : Ship) : WeaponType → ℚ
  | .LASER => sh.fireRateLaser
  | .BULLET => sh.fireRateBullet
  | .MINE => sh.fireRateMine

/-- `Ship::GetSpacing` (lines 411-413): LASER gets `spacingLaser`, every
other weapon `spacingBullet`. -/
def Ship.GetSpacing (sh : Ship) (wt : WeaponType) : ℚ :=
  if wt = .LASER then sh.spacingLaser else sh.spacingBullet

/-- Held-key state read by `PlayerShip::Update` (W/S/A/D translation,
Q/E rotation). -/
structure InputState where
  keyW : Bool
  keyS : Bool
  keyA : Bool
  keyD : Bool
  keyQ : Bool
  keyE : Bool
deriving DecidableEq

/-- `PlayerShip::Update` (lines 443-455): additive axis movement while
alive; a dead ship drifts downward at `speed`. -/
def Ship.Update (dt : ℚ) (inp : InputState) (sh : Ship) : Ship :=
  if sh.alive then
    let y1 := if inp.keyW then sh.pos.y - sh.speed * dt else sh.pos.y
    let y2 := if inp.keyS then y1 + sh.speed * dt else y1
    let x1 := if inp.keyA then sh.pos.x - sh.speed * dt else sh.pos.x
    let x2 := if inp.keyD then x1 + sh.speed * dt else x1
    let r1 := if inp.keyQ then sh.rot - sh.rSpeed * dt else sh.rot
    let r2 := if inp.keyE then r1 + sh.rSpeed * dt else r1
    { sh with pos := ⟨x2, y2⟩, rot := r2 }
  else
    { sh with pos := ⟨sh.pos.x, sh.pos.y + sh.speed * dt⟩ }

/-- One operation applied to the player ship during play: a frame of
`PlayerShip::Update` or one `Ship::TakeDamage` call. -/
inductive ShipOp where
  | update : ℚ → InputState → ShipOp
  | damage : ℤ → ShipOp

/-- Apply one `ShipOp`. -/
def applyOp (op : ShipOp) (sh : Ship) : Ship :=
  match op with
  | .update dt inp => sh.Update dt inp
  | .damage d => sh.TakeDamage d

/-- Apply a sequence of `ShipOp`s, first element first. -/
def applyOps : List ShipOp → Ship → Ship
  | [], sh => sh
  | op :: rest, sh => applyOps rest (applyOp op sh)

-- ---------------------------------------------------------------------------
-- Collision passes (Main.cpp lines 592-632)
-- ---------------------------------------------------------------------------

/-- The collision test of pass A (line 597-598):
`Vector2Distance(proj, ast) < proj.GetRadius() + ast.GetRadius()`,
embedded squared. -/
def hitB (p : Projectile) (a : Asteroid) : Bool :=
  decide (distSq p.pos a.pos < (p.GetRadius + a.GetRadius) ^ 2)

/-- The collision test of pass B (lines 618-620):
`Vector2Distance(player, ast) < player.GetRadius() + ast.GetRadius()`,
embedded squared. -/
def hitsSA (sh : Ship) (a : Asteroid) : Bool :=
  decide (distSq sh.pos a.pos < (sh.radius + a.GetRadius) ^ 2)

/-- The inner loop of collision pass A (lines 596-607) for one projectile:
scan the asteroid list in order; on the first contact, apply the
projectile's damage, erase the asteroid if now dead, and stop.  Returns
`none` when the projectile touches no asteroid, otherwise `some` of the
updated asteroid list. -/
def hitFirst (p : Projectile) : List Asteroid → Option (List Asteroid)
  | [] => none
  | a :: rest =>
    if hitB p a then
      let a2 := a.TakeDamage p.GetDamage
      some (if a2.IsDead then rest else a2 :: rest)
    else
      match hitFirst p rest with
      | none => none
      | some rest2 => some (a :: rest2)

/-- Collision pass A (lines 593-611): for each projectile in order, run the
inner scan; a projectile that made contact is erased (`projectiles.erase`),
one that did not is kept. -/
def passA : List Projectile → List Asteroid → List Projectile × List Asteroid
  | [], as => ([], as)
  | p :: ps, as =>
    match hitFirst p as with
    | some as2 => passA ps as2
    | none =>
      let r := passA ps as
      (p :: r.1, r.2)

/-- Collision pass B (lines 613-632): `std::remove_if` applies the
`remove_collision` lambda to each asteroid in order.  While the player is
alive and in contact, the player takes the asteroid's damage and the
asteroid is removed (no integration, no hit-point check); otherwise the
asteroid is integrated by `Asteroid::Update` and removed iff that returned
`false`.  The lambda mutates the player through the captured reference, so
the ship state threads left to right. -/
def passB (W H dt : ℚ) : Ship → List Asteroid → Ship × List Asteroid
  | sh, [] => (sh, [])
  | sh, a :: rest =>
    if sh.alive && hitsSA sh a then
      passB W H dt (sh.TakeDamage a.GetDamage) rest
    else
      let r := a.Update W H dt
      let q := passB W H dt sh rest
      (q.1, if r.2 then r.1 :: q.2 else q.2)

/-- Pass B instrumented with the list of ids of the asteroids that damaged
the player (ghost data; `passBEvents_proj` shows the dynamics coincide with
`passB`). -/
def passBEvents (W H dt : ℚ) : Ship → List Asteroid → Ship × List Asteroid × List ℕ
  | sh, [] => (sh, [], [])
  | sh, a :: rest =>
    if sh.alive && hitsSA sh a then
      let q := passBEvents W H dt (sh.TakeDamage a.GetDamage) rest
      (q.1, q.2.1, a.id :: q.2.2)
    else
      let r := a.Update W H dt
      let q := passBEvents W H dt sh rest
      (q.1, (if r.2 then r.1 :: q.2.1 else q.2.1), q.2.2)

/-- The collision section of one frame of `Application::Run` (lines
592-632), in source order: pass A (projectile vs asteroid) strictly before
pass B (asteroid vs player).  Returns the surviving projectiles, the ship,
the surviving asteroids, and the ids of asteroids that damaged the player
this frame. -/
def collisionFrame (W H dt : ℚ) (ps : List Projectile) (as : List Asteroid)
    (sh : Ship) : List Projectile × Ship × List Asteroid × List ℕ :=
  let r := passA ps as
  let q := passBEvents W H dt sh r.2
  (r.1, q.1, q.2.1, q.2.2)

-- ---------------------------------------------------------------------------
-- Shooting block (Main.cpp lines 550-574)
-- ---------------------------------------------------------------------------

/-- C `fmodf` on ℚ: the remainder of `x / y` with truncation toward zero.
All uses in the game have `x, y > 0`, where this agrees with the floor
form. -/
def fmodQ (x y : ℚ) : ℚ :=
  if 0 ≤ x / y then x - y * ⌊x / y⌋ else x - y * ⌈x / y⌉

/-- The idle branch of the shooting block (lines 567-573): when the fire key
is not held or the player is dead, fold the shot timer by `fmodf` only when
it strictly exceeds `1 / fireRate`. -/
def idleClamp (sh : Ship) (wt : WeaponType) (shotTimer : ℚ) : ℚ :=
  let maxInterval := 1 / sh.GetFireRate wt
  if shotTimer > maxInterval then fmodQ shotTimer maxInterval else shotTimer

/-- The `while (shotTimer >= interval)` loop (lines 557-565): returns the
final shot timer and the number of projectiles emitted.  The conjunct
`0 < interval` is needed for termination; it always holds in the game, where
`interval` is `1/18`, `1/12` or `1/2` (with `interval ≤ 0` the C++ loop
would not terminate). -/
def fireLoopAux (interval shotTimer : ℚ) : ℚ × ℕ :=
  if h : 0 < interval ∧ interval ≤ shotTimer then
    let r := fireLoopAux interval (shotTimer - interval)
    (r.1, r.2 + 1)
  else
    (shotTimer, 0)
termination_by (⌊shotTimer / interval⌋).toNat
decreasing_by
  have h1 : (1 : ℚ) ≤ shotTimer / interval := (one_le_div h.1).mpr h.2
  have h2 : (1 : ℤ) ≤ ⌊shotTimer / interval⌋ := by
    exact_mod_cast Int.le_floor.mpr (by exact_mod_cast h1)
  have h3 : (shotTimer - interval) / interval = shotTimer / interval - 1 := by
    rw [sub_div, div_self (ne_of_gt h.1)]
  have h4 : ⌊(shotTimer - interval) / interval⌋ = ⌊shotTimer / interval⌋ - 1 := by
    rw [h3, Int.floor_sub_one]
  simp only [h4]
  omega

/-- The shooting block of `Application::Run` (lines 550-574).  Returns the
new shot timer and the projectiles emitted this frame (pushed in order;
since the player state is constant during the inner `while` loop, all
emitted projectiles are identical, hence the `List.replicate`).  The muzzle
point and heading are computed as in lines 558-562: heading =
(player rotation − 90°) in radians, origin = player position offset by the
player radius along the heading. -/
def shootingStep (cosf sinf : ℚ → ℚ) (piq : ℚ) (fireHeld : Bool) (dt : ℚ)
    (player : Ship) (wt : WeaponType) (shotTimer : ℚ) : ℚ × List Projectile :=
  if player.alive && fireHeld then
    let t := shotTimer + dt
    let interval := 1 / player.GetFireRate wt
    let projSpeed := player.GetSpacing wt * player.GetFireRate wt
    let rotRad := (player.rot - 90) * (piq / 180)
    let p : Vec2 := ⟨player.pos.x + cosf rotRad * player.radius,
                     player.pos.y + sinf rotRad * player.radius⟩
    let r := fireLoopAux interval t
    (r.1, List.replicate r.2 (MakeProjectile cosf sinf wt p projSpeed rotRad))
  else
    (idleClamp player wt shotTimer, [])

-- ---------------------------------------------------------------------------
-- Example entities used by the witness checks
-- ---------------------------------------------------------------------------

/-- A LASER projectile at (100, 100) (trigonometric parameters instantiated
arbitrarily; they do not affect the collision passes). -/
def pEx : Projectile :=
  MakeProjectile (fun _ => 1) (fun _ => 0) .LASER ⟨100, 100⟩ 720 0

/-- A MINE projectile at (100, 100); its damage 150 exceeds every SMALL
asteroid's hit points. -/
def pMineEx : Projectile :=
  MakeProjectile (fun _ => 1) (fun _ => 0) .MINE ⟨100, 100⟩ 720 0

/-- A freshly built SMALL asteroid at (100, 100) with ghost id 7. -/
def aEx : Asteroid := mkAsteroidOfClass 7 ⟨100, 100⟩ 0 ⟨0, 0⟩ 0 .SMALL

/-- A freshly built SMALL asteroid far away at (800, 800), ghost id 3. -/
def bEx : Asteroid := mkAsteroidOfClass 3 ⟨800, 800⟩ 0 ⟨0, 0⟩ 0 .SMALL

/-- A player ship in a 200 × 200 viewport (so centred at (100, 100)) with
radius 32. -/
def shEx : Ship := Ship.new 200 200 32

-- ---------------------------------------------------------------------------
-- Supporting lemmas
-- ---------------------------------------------------------------------------

/-- The asteroid radius is positive for every size class. -/
lemma asteroid_radius_pos (a : Asteroid) : 0 < a.GetRadius := by
  cases h : a.size <;> simp [Asteroid.GetRadius, h, SizeClass.sizeNum]

/-- The projectile radius is positive for every weapon kind. -/
lemma projectile_radius_pos (p : Projectile) : 0 < p.GetRadius := by
  cases h : p.type <;> simp [Projectile.GetRadius, h]

/-- Fidelity of the squared collision test: `hitB` decides exactly the
source condition `Vector2Distance < GetRadius() + GetRadius()`. -/
lemma hitB_iff_dist (p : Projectile) (a : Asteroid) :
    hitB p a = true ↔
      Real.sqrt ((distSq p.pos a.pos : ℚ) : ℝ) <
        ((p.GetRadius : ℚ) : ℝ) + ((a.GetRadius : ℚ) : ℝ) := by
  have hs : (0 : ℝ) < ((p.GetRadius : ℚ) : ℝ) + ((a.GetRadius : ℚ) : ℝ) := by
    have h1 := projectile_radius_pos p
    have h2 := asteroid_radius_pos a
    exact_mod_cast add_pos h1 h2
  rw [hitB, decide_eq_true_eq, Real.sqrt_lt' hs]
  rw [show ((p.GetRadius : ℚ) : ℝ) + ((a.GetRadius : ℚ) : ℝ)
        = (((p.GetRadius + a.GetRadius : ℚ) : ℝ)) by push_cast; ring]
  rw [show (((p.GetRadius + a.GetRadius : ℚ) : ℝ)) ^ 2
        = (((p.GetRadius + a.GetRadius) ^ 2 : ℚ) : ℝ) by push_cast; ring]
  exact_mod_cast Iff.rfl

/-- A dead ship stays dead under one `ShipOp`. -/
lemma applyOp_dead (op : ShipOp) (sh : Ship) (h : sh.alive = false) :
    (applyOp op sh).alive = false := by
  cases op with
  | update dt inp => simp [applyOp, Ship.Update, h]
  | damage d => simp [applyOp, Ship.TakeDamage, h]

/-- A dead ship stays dead under any sequence of `ShipOp`s. -/
lemma applyOps_dead (ops : List ShipOp) : ∀ sh : Ship, sh.alive = false →
    (applyOps ops sh).alive = false := by
  induction ops with
  | nil => intro sh h; simpa [applyOps] using h
  | cons op rest ih =>
    intro sh h
    simpa [applyOps] using ih (applyOp op sh) (applyOp_dead op sh h)

-- ---------------------------------------------------------------------------
-- C4
-- ---------------------------------------------------------------------------

/-- C4: `Ship::TakeDamage` is a no-op when `alive` is already false;
otherwise it subtracts the damage from the hit points and leaves `alive`
true exactly when the hit points stayed positive; once `alive` is false no
sequence of `Update`/`TakeDamage` calls makes it true again, and only the
restart constructor (`Ship.new`, as invoked by the restart branch of
`Application::Run`) yields a live player. -/
theorem ship_damage_one_way (sh : Ship) (d : ℤ) (ops : List ShipOp)
    (W H r : ℚ) :
    (sh.alive = false → sh.TakeDamage d = sh) ∧
    (sh.alive = true →
       (sh.TakeDamage d).hp = sh.hp - d ∧
       ((sh.TakeDamage d).alive = true ↔ 0 < sh.hp - d)) ∧
    (sh.alive = false → (applyOps ops sh).alive = false) ∧
    (Ship.new W H r).alive = true := by
  refine ⟨?_, ?_, ?_, ?_⟩
  · intro h; simp [Ship.TakeDamage, h]
  · intro h
    constructor
    · simp only [Ship.TakeDamage, h, if_true]
      split <;> simp
    · simp only [Ship.TakeDamage, h, if_true]
      split <;> rename_i hsplit <;> simp <;> omega
  · exact applyOps_dead ops sh
  · simp [Ship.new]

/-- C4 witness: at a concrete dead ship, `TakeDamage` is the identity and a
concrete op sequence leaves it dead; at a live ship the hit points drop by
the damage. -/
theorem ship_damage_one_way_check :
    ((shEx.TakeDamage 1000).alive = false → (shEx.TakeDamage 1000).TakeDamage 5 = shEx.TakeDamage 1000) ∧
    ((shEx.TakeDamage 1000).alive = false →
      (applyOps [ShipOp.update 1 ⟨true, false, false, false, false, false⟩,
                 ShipOp.damage 3] (shEx.TakeDamage 1000)).alive = false) ∧
    (shEx.alive = true → (shEx.TakeDamage 30).hp = shEx.hp - 30 ∧
      ((shEx.TakeDamage 30).alive = true ↔ 0 < shEx.hp - 30)) :=
  ⟨(ship_damage_one_way (shEx.TakeDamage 1000) 5
      [ShipOp.update 1 ⟨true, false, false, false, false, false⟩, ShipOp.damage 3] 1 1 1).1,
   (ship_damage_one_way (shEx.TakeDamage 1000) 5
      [ShipOp.update 1 ⟨true, false, false, false, false, false⟩, ShipOp.damage 3] 1 1 1).2.2.1,
   (ship_damage_one_way shEx 30 [] 1 1 1).2.1⟩

-- ---------------------------------------------------------------------------
-- C5
-- ---------------------------------------------------------------------------

/-- C5: the two culling rules differ by a radius margin.  An asteroid's
`Update(dt)` advances the position by velocity·dt and the rotation by
rotationSpeed·dt, and signals removal (returns `false`) iff the new position
lies outside the viewport extended by the asteroid's own radius on every
side; a projectile's `Update(dt)` signals removal (returns `true`) iff its
remaining lifetime after the decrement is ≤ 0 or the new position leaves the
exact viewport rectangle, with no radius margin. -/
theorem culling_margin_rules (W H dt : ℚ) (a : Asteroid) (p : Projectile) :
    ((a.Update W H dt).1.pos.x = a.pos.x + a.vel.x * dt ∧
     (a.Update W H dt).1.pos.y = a.pos.y + a.vel.y * dt ∧
     (a.Update W H dt).1.rot = a.rot + a.rotationSpeed * dt) ∧
    ((a.Update W H dt).2 = false ↔
      (a.pos.x + a.vel.x * dt < -a.GetRadius ∨
       a.pos.x + a.vel.x * dt > W + a.GetRadius ∨
       a.pos.y + a.vel.y * dt < -a.GetRadius ∨
       a.pos.y + a.vel.y * dt > H + a.GetRadius)) ∧
    ((p.Update W H dt).1.pos.x = p.pos.x + p.vel.x * dt ∧
     (p.Update W H dt).1.pos.y = p.pos.y + p.vel.y * dt ∧
     (p.Update W H dt).1.life = p.life - dt) ∧
    ((p.Update W H dt).2 = true ↔
      (p.life - dt ≤ 0 ∨
       (p.pos.x + p.vel.x * dt < 0 ∨ p.pos.x + p.vel.x * dt > W ∨
        p.pos.y + p.vel.y * dt < 0 ∨ p.pos.y + p.vel.y * dt > H))) := by
  refine ⟨?_, ?_, ?_, ?_⟩
  · simp only [Asteroid.Update]
    split_ifs <;> simp
  · simp only [Asteroid.Update]
    split_ifs with h <;> simp [h]
  · simp only [Projectile.Update]
    split_ifs <;> simp
  · simp only [Projectile.Update]
    split_ifs with h1 h2 <;> simp_all

/-- C5 witness: concrete instances of both culling rules. -/
theorem culling_margin_rules_check :
    ((aEx.Update 900 900 1).2 = false ↔
      (aEx.pos.x + aEx.vel.x * 1 < -aEx.GetRadius ∨
       aEx.pos.x + aEx.vel.x * 1 > 900 + aEx.GetRadius ∨
       aEx.pos.y + aEx.vel.y * 1 < -aEx.GetRadius ∨
       aEx.pos.y + aEx.vel.y * 1 > 900 + aEx.GetRadius)) ∧
    ((pEx.Update 900 900 1).2 = true ↔
      (pEx.life - 1 ≤ 0 ∨
       (pEx.pos.x + pEx.vel.x * 1 < 0 ∨ pEx.pos.x + pEx.vel.x * 1 > 900 ∨
        pEx.pos.y + pEx.vel.y * 1 < 0 ∨ pEx.pos.y + pEx.vel.y * 1 > 900))) :=
  ⟨(culling_margin_rules 900 900 1 aEx pEx).2.1,
   (culling_margin_rules 900 900 1 aEx pEx).2.2.2⟩

-- ---------------------------------------------------------------------------
-- C7
-- ---------------------------------------------------------------------------

/-- C7: every per-weapon fire rate and muzzle spacing of a freshly
constructed player ship is strictly positive (the constructor assigns the
fixed constants 18, 12, 2, 40, 20), so the per-frame shot interval
`1 / fireRate` is well defined and itself positive for every weapon — no
per-frame division by zero is possible. -/
theorem fire_config_positive_at_construction (W H r : ℚ) (wt : WeaponType) :
    0 < (Ship.new W H r).GetFireRate wt ∧
    0 < (Ship.new W H r).GetSpacing wt ∧
    0 < 1 / (Ship.new W H r).GetFireRate wt := by
  cases wt <;>
    refine ⟨?_, ?_, ?_⟩ <;>
    simp only [Ship.new, Ship.GetFireRate, Ship.GetSpacing, reduceCtorEq,
      eq_self_iff_true, if_true, if_false] <;>
    norm_num

-- ---------------------------------------------------------------------------
-- C9
-- ---------------------------------------------------------------------------

/-- C10: contact damage is base damage times size multiplier, giving
SMALL 5·1 = 5, MEDIUM 10·2 = 20, LARGE 15·4 = 60, GIGA 10·10 = 100 (GIGA
reuses MEDIUM's base damage 10); a fresh player has 100 hit points, so one
GIGA contact brings it to exactly 0 and kills it. -/
theorem asteroid_damage_table (i : ℕ) (pos : Vec2) (rot : ℚ) (vel : Vec2)
    (rsp W H r : ℚ) :
    (mkAsteroidOfClass i pos rot vel rsp .SMALL).GetDamage = 5 ∧
    (mkAsteroidOfClass i pos rot vel rsp .MEDIUM).GetDamage = 20 ∧
    (mkAsteroidOfClass i pos rot vel rsp .LARGE).GetDamage = 60 ∧
    (mkAsteroidOfClass i pos rot vel rsp .GIGA).GetDamage = 100 ∧
    (mkAsteroidOfClass i pos rot vel rsp .GIGA).baseDamage =
      (mkAsteroidOfClass i pos rot vel rsp .MEDIUM).baseDamage ∧
    (Ship.new W H r).hp = 100 ∧
    ((Ship.new W H r).TakeDamage
        ((mkAsteroidOfClass i pos rot vel rsp .GIGA).GetDamage)).hp = 0 ∧
    ((Ship.new W H r).TakeDamage
        ((mkAsteroidOfClass i pos rot vel rsp .GIGA).GetDamage)).alive = false := by
  norm_num [mkAsteroidOfClass, Asteroid.GetDamage, SizeClass.sizeNum,
    SizeClass.baseDamageOf, Ship.new, Ship.TakeDamage]

-- ---------------------------------------------------------------------------
-- C1
-- ---------------------------------------------------------------------------

/-- The inner scan of pass A resolves on the first colliding asteroid:
earlier non-colliding asteroids pass through untouched, the hit asteroid is
damaged and erased iff now dead, and the asteroids after it are not
scanned. -/
lemma hitFirst_found (p : Projectile) (pre : List Asteroid) (a : Asteroid)
    (post : List Asteroid) (hpre : ∀ b ∈ pre, hitB p b = false)
    (ha : hitB p a = true) :
    hitFirst p (pre ++ a :: post) =
      some (pre ++ (if a.hp - p.GetDamage ≤ 0 then post
                    else { a with hp := a.hp - p.GetDamage } :: post)) := by
  induction pre with
  | nil =>
    simp only [List.nil_append, hitFirst, ha, if_true]
    simp only [Asteroid.TakeDamage, Asteroid.IsDead]
    split_ifs with h1 h2 <;> simp_all
  | cons b pre ih =>
    have hb : hitB p b = false := hpre b (by simp)
    have ihh := ih (fun c hc => hpre c (by simp [hc]))
    simp [hitFirst, hb, ihh]

/-- C1: in collision pass A, for a projectile `p` and an asteroid list in
which the asteroids before `a` do not touch `p` but `a` does, `a` receives
`p`'s damage (its hit points become `hp - damage`), `a` is erased iff
`hp - damage ≤ 0`, the projectile itself is erased unconditionally (it does
not survive to the recursive call even when `a` survived), and the
asteroids after `a` are not scanned for this projectile (the `post` segment
passes through unchanged). -/
theorem pass_a_first_hit (p : Projectile) (ps : List Projectile)
    (pre : List Asteroid) (a : Asteroid) (post : List Asteroid)
    (hpre : ∀ b ∈ pre, hitB p b = false) (ha : hitB p a = true) :
    passA (p :: ps) (pre ++ a :: post) =
      passA ps (pre ++ (if a.hp - p.GetDamage ≤ 0 then post
                        else { a with hp := a.hp - p.GetDamage } :: post)) := by
  simp [passA, hitFirst_found p pre a post hpre ha]

/-- C1 witness: a LASER projectile at (100, 100) misses the far asteroid
`bEx`, hits `aEx` (25 hp, damage 17, so `aEx` survives with 8 hp), and the
pass continues without the projectile. -/
theorem pass_a_first_hit_check :
    (∀ b ∈ [bEx], hitB pEx b = false) ∧ hitB pEx aEx = true ∧
    passA [pEx] ([bEx] ++ aEx :: []) =
      passA [] ([bEx] ++ (if aEx.hp - pEx.GetDamage ≤ 0 then []
                          else { aEx with hp := aEx.hp - pEx.GetDamage } :: [])) :=
  ⟨by
    intro b hb
    rw [List.mem_singleton] at hb
    subst hb
    norm_num [hitB, distSq, pEx, bEx, MakeProjectile, mkAsteroidOfClass,
      Projectile.GetRadius, Asteroid.GetRadius, SizeClass.sizeNum],
   by
    norm_num [hitB, distSq, pEx, aEx, MakeProjectile, mkAsteroidOfClass,
      Projectile.GetRadius, Asteroid.GetRadius, SizeClass.sizeNum],
   pass_a_first_hit pEx [] [bEx] aEx []
    (by
      intro b hb
      rw [List.mem_singleton] at hb
      subst hb
      norm_num [hitB, distSq, pEx, bEx, MakeProjectile, mkAsteroidOfClass,
        Projectile.GetRadius, Asteroid.GetRadius, SizeClass.sizeNum])
    (by
      norm_num [hitB, distSq, pEx, aEx, MakeProjectile, mkAsteroidOfClass,
        Projectile.GetRadius, Asteroid.GetRadius, SizeClass.sizeNum])⟩

-- ---------------------------------------------------------------------------
-- C2
-- ---------------------------------------------------------------------------

/-- C2: in collision pass B, an asteroid in contact with the live player is
consumed unconditionally — the player takes the asteroid's damage and the
asteroid is dropped with no hit-point check or reduction (the equation holds
for every `a.hp`, and `a` does not appear on the right-hand side); an
asteroid that does not contact a live player is instead integrated by
`Asteroid::Update` and kept exactly when that did not signal
out-of-bounds removal. -/
theorem pass_b_policy (W H dt : ℚ) (sh : Ship) (a : Asteroid)
    (rest : List Asteroid) :
    (sh.alive = true → hitsSA sh a = true →
       passB W H dt sh (a :: rest) =
         passB W H dt (sh.TakeDamage a.GetDamage) rest) ∧
    (¬(sh.alive = true ∧ hitsSA sh a = true) →
       passB W H dt sh (a :: rest) =
         ((passB W H dt sh rest).1,
          if (a.Update W H dt).2 then
            (a.Update W H dt).1 :: (passB W H dt sh rest).2
          else (passB W H dt sh rest).2)) := by
  constructor
  · intro h1 h2
    simp [passB, h1, h2]
  · intro h
    rw [passB]
    rw [if_neg (by simpa [Bool.and_eq_true] using h)]

/-- C2 witness: the ship at (100, 100) touches `aEx` (same position), so
the contact branch applies; it does not touch the far asteroid `bEx`, so
the integrate branch applies. -/
theorem pass_b_policy_check :
    (shEx.alive = true ∧ hitsSA shEx aEx = true ∧
      passB 900 900 1 shEx (aEx :: []) =
        passB 900 900 1 (shEx.TakeDamage aEx.GetDamage) []) ∧
    (¬(shEx.alive = true ∧ hitsSA shEx bEx = true) ∧
      passB 900 900 1 shEx (bEx :: []) =
        ((passB 900 900 1 shEx []).1,
         if (bEx.Update 900 900 1).2 then
           (bEx.Update 900 900 1).1 :: (passB 900 900 1 shEx []).2
         else (passB 900 900 1 shEx []).2)) := by
  have halive : shEx.alive = true := by norm_num [shEx, Ship.new]
  have hhit : hitsSA shEx aEx = true := by
    norm_num [hitsSA, distSq, shEx, aEx, Ship.new, mkAsteroidOfClass,
      Asteroid.GetRadius, SizeClass.sizeNum]
  have hmiss : hitsSA shEx bEx = false := by
    norm_num [hitsSA, distSq, shEx, bEx, Ship.new, mkAsteroidOfClass,
      Asteroid.GetRadius, SizeClass.sizeNum]
  refine ⟨⟨halive, hhit, (pass_b_policy 900 900 1 shEx aEx []).1 halive hhit⟩,
          ⟨by simp [hmiss], (pass_b_policy 900 900 1 shEx bEx []).2 (by simp [hmiss])⟩⟩

-- ---------------------------------------------------------------------------
-- C3
-- ---------------------------------------------------------------------------

/-- The instrumented pass B coincides with `passB` on the ship and the
surviving asteroids: the event list is ghost data only. -/
lemma passBEvents_proj (W H dt : ℚ) (A : List Asteroid) : ∀ sh : Ship,
    ((passBEvents W H dt sh A).1, (passBEvents W H dt sh A).2.1) =
      passB W H dt sh A := by
  induction A with
  | nil => intro sh; simp [passBEvents, passB]
  | cons a rest ih =>
    intro sh
    by_cases hc : (sh.alive && hitsSA sh a) = true
    · have h1 := congrArg Prod.fst (ih (sh.TakeDamage a.GetDamage))
      have h2 := congrArg Prod.snd (ih (sh.TakeDamage a.GetDamage))
      simp only at h1 h2
      simp [passBEvents, passB, hc, h1, h2]
    · have h1 := congrArg Prod.fst (ih sh)
      have h2 := congrArg Prod.snd (ih sh)
      simp only at h1 h2
      simp [passBEvents, passB, hc, h1, h2]

/-- Every id in the damage-event list of pass B belongs to an asteroid in
the list pass B was given. -/
lemma passBEvents_hits_subset (W H dt : ℚ) (A : List Asteroid) :
    ∀ (sh : Ship) (i : ℕ), i ∈ (passBEvents W H dt sh A).2.2 →
      i ∈ A.map Asteroid.id := by
  induction A with
  | nil => intro sh i h; simp [passBEvents] at h
  | cons a rest ih =>
    intro sh i h
    by_cases hc : (sh.alive && hitsSA sh a) = true
    · rw [passBEvents, if_pos hc] at h
      simp only [List.mem_cons] at h
      rcases h with h | h
      · simp [h]
      · simp only [List.map_cons, List.mem_cons]
        exact Or.inr (ih (sh.TakeDamage a.GetDamage) i h)
    · rw [passBEvents, if_neg hc] at h
      simp only [List.map_cons, List.mem_cons]
      exact Or.inr (ih sh i h)

/-- C3: within a frame, pass A runs strictly before pass B
(`collisionFrame` is their composition in source order), so an asteroid
that is present before pass A but absent from pass A's survivors — one
removed by a projectile — never produces a player-damage event in pass B of
the same frame. -/
theorem pass_order_shields_player (W H dt : ℚ) (ps : List Projectile)
    (as : List Asteroid) (sh : Ship) (i : ℕ)
    (hin : i ∈ as.map Asteroid.id)
    (hkilled : i ∉ (passA ps as).2.map Asteroid.id) :
    i ∉ (collisionFrame W H dt ps as sh).2.2.2 := by
  intro hmem
  simp only [collisionFrame] at hmem
  exact hkilled (passBEvents_hits_subset W H dt (passA ps as).2 sh i hmem)

/-- C3 witness: the MINE projectile (damage 150) kills `aEx` (25 hp, ghost
id 7) in pass A, and id 7 indeed produces no damage event in the frame. -/
theorem pass_order_shields_player_check :
    (7 ∈ [aEx].map Asteroid.id ∧
     7 ∉ (passA [pMineEx] [aEx]).2.map Asteroid.id) ∧
    7 ∉ (collisionFrame 900 900 1 [pMineEx] [aEx] shEx).2.2.2 := by
  have hpassA : passA [pMineEx] [aEx] = ([], []) := by
    norm_num [passA, hitFirst, hitB, distSq, pMineEx, aEx, MakeProjectile,
      mkAsteroidOfClass, Projectile.GetRadius, Asteroid.GetRadius,
      SizeClass.sizeNum, SizeClass.maxHPOf, SizeClass.baseDamageOf,
      Asteroid.TakeDamage, Asteroid.IsDead, Projectile.GetDamage]
  have h1 : 7 ∈ [aEx].map Asteroid.id := by simp [aEx, mkAsteroidOfClass]
  have h2 : 7 ∉ (passA [pMineEx] [aEx]).2.map Asteroid.id := by
    simp [hpassA]
  exact ⟨⟨h1, h2⟩,
    pass_order_shields_player 900 900 1 [pMineEx] [aEx] shEx 7 h1 h2⟩

-- ---------------------------------------------------------------------------
-- C6
-- ---------------------------------------------------------------------------

/-- For nonnegative `x` and positive `y`, the C remainder lies in
`[0, y)`. -/
lemma fmodQ_bounds (x y : ℚ) (hx : 0 ≤ x) (hy : 0 < y) :
    0 ≤ fmodQ x y ∧ fmodQ x y < y := by
  have hdiv : 0 ≤ x / y := div_nonneg hx hy.le
  rw [fmodQ, if_pos hdiv]
  have h1 : x - y * ⌊x / y⌋ = y * Int.fract (x / y) := by
    rw [Int.fract, mul_sub, mul_comm y (x / y), div_mul_cancel₀ x (ne_of_gt hy)]
  rw [h1]
  constructor
  · exact mul_nonneg hy.le (Int.fract_nonneg _)
  · calc y * Int.fract (x / y) < y * 1 :=
          mul_lt_mul_of_pos_left (Int.fract_lt_one _) hy
      _ = y := mul_one y

/-- C6 counterexample: with the LASER weapon, a shot timer exactly equal to
the firing interval `1/18` is NOT clamped (the source guard
`shotTimer > maxInterval` is strict), so after the idle frame the shot
timer is not strictly less than the interval, contradicting the claim's
range `[0, 1/fireRate)` for every shot-timer value. -/
theorem idle_clamp_at_interval_not_reduced :
    idleClamp (Ship.new 900 900 32) WeaponType.LASER (1 / 18) = 1 / 18 ∧
    ¬(idleClamp (Ship.new 900 900 32) WeaponType.LASER (1 / 18) <
        1 / (Ship.new 900 900 32).GetFireRate WeaponType.LASER) := by
  constructor
  · norm_num [idleClamp, Ship.new, Ship.GetFireRate]
  · norm_num [idleClamp, Ship.new, Ship.GetFireRate]

/-- C6 (amended): for every nonnegative shot timer, one idle frame leaves
the shot timer in `[0, interval]`; it is strictly below the interval
whenever it did not start exactly equal to the interval (and in particular
a shot timer of 5 times the interval is clamped into `[0, interval)`). -/
theorem idle_clamp_range (sh : Ship) (wt : WeaponType) (t : ℚ)
    (hrate : 0 < sh.GetFireRate wt) (ht : 0 ≤ t) :
    0 ≤ idleClamp sh wt t ∧
    idleClamp sh wt t ≤ 1 / sh.GetFireRate wt ∧
    (t ≠ 1 / sh.GetFireRate wt → idleClamp sh wt t < 1 / sh.GetFireRate wt) := by
  have hI : 0 < 1 / sh.GetFireRate wt := by positivity
  by_cases hgt : t > 1 / sh.GetFireRate wt
  · have hb := fmodQ_bounds t (1 / sh.GetFireRate wt) ht hI
    rw [idleClamp]
    rw [if_pos hgt]
    exact ⟨hb.1, le_of_lt hb.2, fun _ => hb.2⟩
  · rw [idleClamp]
    rw [if_neg hgt]
    push_neg at hgt
    exact ⟨ht, hgt, fun hne => lt_of_le_of_ne hgt hne⟩

/-- C6 witness: LASER weapon, shot timer 5 times the interval `1/18`; the
clamp brings it into `[0, 1/18)`. -/
theorem idle_clamp_range_check :
    0 < (Ship.new 900 900 32).GetFireRate WeaponType.LASER ∧
    (0 : ℚ) ≤ 5 * (1 / 18) ∧
    (0 ≤ idleClamp (Ship.new 900 900 32) WeaponType.LASER (5 * (1 / 18)) ∧
     idleClamp (Ship.new 900 900 32) WeaponType.LASER (5 * (1 / 18)) ≤
       1 / (Ship.new 900 900 32).GetFireRate WeaponType.LASER ∧
     (5 * ((1 : ℚ) / 18) ≠ 1 / (Ship.new 900 900 32).GetFireRate WeaponType.LASER →
       idleClamp (Ship.new 900 900 32) WeaponType.LASER (5 * (1 / 18)) <
         1 / (Ship.new 900 900 32).GetFireRate WeaponType.LASER)) :=
  ⟨by norm_num [Ship.new, Ship.GetFireRate], by norm_num,
   idle_clamp_range (Ship.new 900 900 32) WeaponType.LASER (5 * (1 / 18))
     (by norm_num [Ship.new, Ship.GetFireRate]) (by norm_num)⟩

-- ---------------------------------------------------------------------------
-- C8
-- ---------------------------------------------------------------------------

/-- The firing loop does nothing when the timer is below the interval. -/
lemma fireLoopAux_stop (interval t : ℚ)
    (h : ¬(0 < interval ∧ interval ≤ t)) :
    fireLoopAux interval t = (t, 0) := by
  rw [fireLoopAux]
  exact dif_neg h

/-- With the timer exactly at one positive interval, the firing loop emits
exactly one shot and resets the timer to 0. -/
lemma fireLoopAux_once (interval : ℚ) (h : 0 < interval) :
    fireLoopAux interval interval = (0, 1) := by
  rw [fireLoopAux]
  rw [dif_pos ⟨h, le_refl interval⟩]
  rw [sub_self]
  rw [fireLoopAux_stop interval 0 (fun hc => absurd hc.2 (not_le.mpr hc.1))]

/-- C8: a live player built for a 900×900 viewport (hence at (450, 450))
holding fire with the BEAM (LASER) weapon for one frame of `1/18` s from a
zero shot timer emits exactly one projectile: damage 17, velocity of
magnitude `spacing × fireRate = 40 × 18 = 720` along the heading
`(rotation − 90°)` converted to radians, spawned at the player position
offset by the player radius along that same heading. -/
theorem beam_scenario_single_shot (cosf sinf : ℚ → ℚ) (piq radius rot : ℚ) :
    shootingStep cosf sinf piq true (1 / 18)
        { Ship.new 900 900 radius with rot := rot } WeaponType.LASER 0 =
      (0, [{ pos := ⟨450 + cosf ((rot - 90) * (piq / 180)) * radius,
                     450 + sinf ((rot - 90) * (piq / 180)) * radius⟩,
             rot := (rot - 90) * (piq / 180),
             vel := ⟨cosf ((rot - 90) * (piq / 180)) * 720,
                     sinf ((rot - 90) * (piq / 180)) * 720⟩,
             baseDamage := 17, type := WeaponType.LASER, life := 10 }]) := by
  have hone : fireLoopAux ((1 : ℚ) / 18) ((1 : ℚ) / 18) = (0, 1) :=
    fireLoopAux_once (1 / 18) (by norm_num)
  simp only [shootingStep, Ship.new, Ship.GetFireRate, Ship.GetSpacing,
    MakeProjectile, reduceCtorEq, eq_self_iff_true, if_true, Bool.and_true]
  norm_num [hone]
